import Mathlib

/-!
Verification development for the SSD endurance analyzer.

The Python modules `endurance_calculator.py` and `smart_parser.py` are
embedded shallowly:

* Python `float` arithmetic is modelled by `ℚ` (all quantities involved in
  the claims are exact in binary floating point or are compared only through
  sign/zero tests); the value `float(inf)` that the remaining-lifetime
  computation can produce is modelled by the dedicated type `LifeVal`.
* Python `int` is modelled by `ℤ` (counters extracted by the parser are
  `ℕ` and are coerced).
* `datetime` values are modelled by rational timestamps counted in seconds;
  `(b - a).total_seconds() / 86400.0` becomes `(t2 - t1) / 86400`.
* Fallible code returns `Option` or `Except`: the calculator returns
  `none` for its raised `ValueError`; the extractor returns
  `Except ParseErr SmartData`, distinguishing the explicit missing-field
  `ValueError` from the uncaught `ValueError` that `int` raises on a
  capture left empty by comma removal.
* The free-text input of `smart_parser.py` is modelled by `SmartText`,
  whose fields record exactly the observables that the regular expressions
  of the source inspect: whether the NVMe marker substring occurs, the raw
  capture groups of the label-anchored patterns, and the raw ninth column
  after each legacy attribute-row anchor.  Captured text is kept as
  `List Char` so that the integer-parsing behaviour of the source
  (`int(x.replace(",", ""))` for NVMe captures over `[0-9,]+`, versus the
  bare `(\d+)` capture of the SATA attribute pattern) is reproduced
  faithfully.
-/

/-! ### Digit and capture utilities (semantics of the regex captures) -/

/-- Decidable test for an ASCII decimal digit, the semantics of the regex
class `[0-9]` (and of `\d` on the ASCII text handled here). -/
def isDigitChar (c : Char) : Bool :=
  '0' ≤ c && c ≤ '9'

/-- Numeric value of a digit character. -/
def digitVal (c : Char) : ℕ :=
  c.toNat - '0'.toNat

/-- Base-ten value of a digit string; the semantics of Python `int(s)` on a
string of decimal digits. -/
def parseDigits (s : List Char) : ℕ :=
  s.foldl (fun acc c => acc * 10 + digitVal c) 0

/-- Semantics of Python `s.replace(",", "")`. -/
def stripCommas (s : List Char) : List Char :=
  s.filter (fun c => c ≠ ',')

/-- The longest run of digits at the head of a token: the text captured by
`(\d+)` when matching starts at the head of the token. -/
def leadingDigits (s : List Char) : List Char :=
  s.takeWhile isDigitChar

/-- Whether a token begins with a digit, i.e. whether `(\d+)` can match at
its head at all. -/
def headIsDigit (s : List Char) : Bool :=
  match s with
  | [] => false
  | c :: _ => isDigitChar c

/-! ### `smart_parser.SmartData` -/

/-- Container for parsed SMART data from a single snapshot
(`smart_parser.SmartData`).  Textual fields are kept as `List Char`;
`None` becomes `none`. -/
structure SmartData where
  timestamp : Option ℚ := none
  model : Option (List Char) := none
  serial : Option (List Char) := none
  capacity_bytes : Option ℕ := none
  data_units_written : Option ℕ := none
  data_units_read : Option ℕ := none
  power_on_hours : Option ℕ := none
  percentage_used : Option ℕ := none
  available_spare : Option ℕ := none
  is_nvme : Bool := false
deriving DecidableEq, Repr

/-! ### The observable content of one smartctl text blob -/

/-- Abstraction of one UTF-8 smartctl text blob: the data that the regular
expressions of `smart_parser.py` can observe in it.

* `hasNVMeMarker` — whether the substring `NVMe` or `NVME` occurs
  (`parse_file`, dialect detection).
* `localTime` — the already-parsed result of the `Local Time is:` line
  after the ordered list of timestamp formats (`_parse_timestamp`);
  `none` when the line is absent or no format parses.
* `modelStr`, `serialStr` — the stripped captures of the model and
  `Serial Number:` patterns.  Note that `(.+)` followed by `.strip()` can
  produce the empty string when the captured text is all whitespace, so
  `some []` is a reachable value for `serialStr`.
* `capacityCap` — the raw text captured by `([0-9,]+)` after the
  capacity label (the primary label, or the fallback label when only that
  one matches; `_parse_capacity`).
* `nvmeWrittenCap`, `nvmeReadCap`, `nvmePowerOnCap` — the raw text captured
  by `([0-9,]+)` after the corresponding NVMe labels, when those patterns
  match; by construction of the regex a capture is a non-empty string over
  digits and commas.  Raw captures are kept (rather than parsed values)
  because `int(cap.replace(",", ""))` raises `ValueError` on a capture
  with no digits, and that failure must be visible in the model.
* `nvmePctUsed`, `nvmeSpare` — the `([0-9]+)%` captures, already parsed
  (a non-empty all-digit capture, so `int` on it can never fail).
* `sataWrittenCols`, `sataPohCols` — for each position where the anchor
  alternative (`241`/`Total_LBAs_Written`, resp. `9`/`Power_On_Hours`) of
  the fixed-column SATA attribute pattern matches and is followed by eight
  further whitespace-delimited tokens, the raw ninth following token, in
  text order.  `re.search` succeeds on the first of these whose head is a
  digit, and `(\d+)` then captures its leading digit run. -/
structure SmartText where
  hasNVMeMarker : Bool := false
  localTime : Option ℚ := none
  modelStr : Option (List Char) := none
  serialStr : Option (List Char) := none
  capacityCap : Option (List Char) := none
  nvmeWrittenCap : Option (List Char) := none
  nvmeReadCap : Option (List Char) := none
  nvmePowerOnCap : Option (List Char) := none
  nvmePctUsed : Option ℕ := none
  nvmeSpare : Option ℕ := none
  sataWrittenCols : List (List Char) := []
  sataPohCols : List (List Char) := []
deriving DecidableEq, Repr

/-- Value extracted by the SATA fixed-column attribute pattern: the first
candidate ninth column whose head is a digit, parsed via the bare `(\d+)`
capture (no comma stripping — the capture stops at the first non-digit). -/
def sataFindValue (cols : List (List Char)) : Option ℕ :=
  (cols.find? (fun col => headIsDigit col)).map
    (fun col => parseDigits (leadingDigits col))

/-- Python `int(s)` on the strings arising here (characters drawn from
digits and commas with the commas already removed): succeeds exactly on a
non-empty all-digit string, raises `ValueError` otherwise — in particular
on the empty string. -/
def pyInt (s : List Char) : Option ℕ :=
  if s ≠ [] ∧ s.all isDigitChar = true then some (parseDigits s) else none

/-- Value extracted by an NVMe label pattern: the `([0-9,]+)` capture with
commas removed, then parsed (`int(match.group(1).replace(",", ""))`).
Fails (`none`) when the capture contains no digit, e.g. an all-comma
capture, where Python raises `ValueError` from `int` on the empty
string. -/
def nvmeParseValue (cap : List Char) : Option ℕ :=
  pyInt (stripCommas cap)

/-- Failure modes of `parse_file`.  Both are `ValueError`s in the source:
`missingField` is the explicit raise when the write counter was not set,
`invalidLiteral` is the uncaught error from `int` on a digit-free
capture, raised before the mandatory-field check is reached. -/
inductive ParseErr where
  | missingField
  | invalidLiteral
deriving DecidableEq, Repr

/-- Applying `int(cap.replace(",", ""))` to an optional capture: an absent
pattern leaves the field unset (no failure), a matched capture that `int`
rejects aborts extraction. -/
def parseCapture (c : Option (List Char)) : Except ParseErr (Option ℕ) :=
  match c with
  | none => Except.ok none
  | some cap =>
    match nvmeParseValue cap with
    | none => Except.error ParseErr.invalidLiteral
    | some v => Except.ok (some v)

/-- Whether `int` accepts an optional capture: absent patterns are fine
(the field is skipped), a present capture must keep at least one digit
after comma removal. -/
def capOk (c : Option (List Char)) : Bool :=
  match c with
  | none => true
  | some cap => (nvmeParseValue cap).isSome

/-- `SmartParser.parse_file`, after the file has been read: builds a
`SmartData` from the text observables.  The fallible `int` conversions
happen in source order — capacity first (`_parse_capacity`), then in the
NVMe branch the written, read and power-on captures
(`_parse_nvme_fields`); the SATA branch parses `(\d+)` captures, which
`int` always accepts.  Extraction ends with `ParseErr.missingField`
exactly when none of the earlier conversions raised and
`data_units_written` was not set. -/
def parse_file (t : SmartText) : Except ParseErr SmartData :=
  let is_nvme := t.hasNVMeMarker
  match parseCapture t.capacityCap with
  | Except.error e => Except.error e
  | Except.ok capacity_bytes =>
    match (if is_nvme then parseCapture t.nvmeWrittenCap
           else Except.ok (sataFindValue t.sataWrittenCols)) with
    | Except.error e => Except.error e
    | Except.ok duw =>
      match (if is_nvme then parseCapture t.nvmeReadCap
             else Except.ok none) with
      | Except.error e => Except.error e
      | Except.ok dur =>
        match (if is_nvme then parseCapture t.nvmePowerOnCap
               else Except.ok (sataFindValue t.sataPohCols)) with
        | Except.error e => Except.error e
        | Except.ok poh =>
          match duw with
          | none => Except.error ParseErr.missingField
          | some _ =>
            Except.ok
              { timestamp := t.localTime
                model := t.modelStr
                serial := t.serialStr
                capacity_bytes := capacity_bytes
                data_units_written := duw
                data_units_read := dur
                power_on_hours := poh
                percentage_used := if is_nvme then t.nvmePctUsed else none
                available_spare := if is_nvme then t.nvmeSpare else none
                is_nvme := is_nvme }

/-! ### `SmartParser.validate_snapshots` -/

/-- Python truthiness of an optional string: `None` and the empty string
are falsy, every other string is truthy. -/
def pyTruthy (s : Option (List Char)) : Bool :=
  match s with
  | none => false
  | some l => !l.isEmpty

/-- Outcome of `SmartParser.validate_snapshots`.  The first three error
constructors are the documented `ValueError`s of the source; `typeError`
models the untyped `TypeError` that Python raises when the unconditional
counter comparison is reached with a `None` operand. -/
inductive VOutcome where
  | ok
  | identityMismatch
  | orderingViolation
  | counterRegression
  | typeError
deriving DecidableEq, Repr

/-- Condition of the timestamp-ordering check of `validate_snapshots`:
both timestamps present (`datetime` values are always truthy) and
`snapshot1.timestamp >= snapshot2.timestamp`. -/
def tsOutOfOrder (s1 s2 : SmartData) : Bool :=
  match s1.timestamp, s2.timestamp with
  | some t1, some t2 => t2 ≤ t1
  | _, _ => false

/-- `SmartParser.validate_snapshots`: serial identity check (skipped unless
both serials are truthy), timestamp ordering check (skipped unless both
timestamps are present), then the unconditional counter-monotonicity
comparison. -/
def validate_snapshots (s1 s2 : SmartData) : VOutcome :=
  if pyTruthy s1.serial && pyTruthy s2.serial && (s1.serial ≠ s2.serial) then
    VOutcome.identityMismatch
  else if tsOutOfOrder s1 s2 then
    VOutcome.orderingViolation
  else
    match s1.data_units_written, s2.data_units_written with
    | some a, some b =>
        if b < a then VOutcome.counterRegression else VOutcome.ok
    | _, _ => VOutcome.typeError

/-! ### `endurance_calculator` data model -/

/-- Internal container for drive parameters (`_DriveParams`). -/
structure DriveParams where
  host_lba_size_kb : ℚ
  flash_lba_size_kb : ℚ
  rated_pe_cycles : ℤ
  capacity_gb : ℚ
deriving DecidableEq, Repr

/-- `_DriveParams.capacity_bytes`, set in `__post_init__`. -/
def capacity_bytes (p : DriveParams) : ℚ :=
  p.capacity_gb * 1024 ^ 3

/-- A remaining-lifetime value: a finite rational number of days/years, or
the Python `float(inf)` sentinel. -/
inductive LifeVal where
  | fin : ℚ → LifeVal
  | inf : LifeVal
deriving DecidableEq, Repr

/-- Container for calculated endurance metrics (`EnduranceMetrics`). -/
structure EnduranceMetrics where
  time_delta_days : ℚ
  host_writes_delta : ℚ
  flash_writes_delta : ℚ
  waf : ℚ
  total_host_writes_tb : ℚ
  total_flash_writes_tb : ℚ
  dwpd : ℚ
  daily_write_rate_gb : ℚ
  pe_cycles_consumed : ℚ
  estimated_remaining_days : LifeVal
  estimated_remaining_years : LifeVal
  wear_percentage : ℚ
deriving DecidableEq, Repr

/-- The three metrics fields written by `EnduranceCalculator._calculate_waf`. -/
structure WafResult where
  waf : ℚ
  flash_writes_delta : ℚ
  total_flash_writes_tb : ℚ
deriving DecidableEq, Repr

/-- `EnduranceCalculator._calculate_waf`: measured WAF when both NAND
counters are supplied (guarding the division by a positivity test on the
host delta), otherwise the assumed WAF of 1.0. -/
def calculate_waf (p : DriveParams)
    (host_writes_delta total_host_writes_tb : ℚ)
    (snap1_nand snap2_nand : Option ℤ) : WafResult :=
  match snap1_nand, snap2_nand with
  | some n1, some n2 =>
      let flash_delta : ℤ := n2 - n1
      let flash_writes_delta : ℚ :=
        (flash_delta : ℚ) * p.flash_lba_size_kb * 1024
      let total_flash_writes_tb : ℚ :=
        (n2 : ℚ) * p.flash_lba_size_kb * 1024 / 1024 ^ 4
      if 0 < host_writes_delta then
        { waf := flash_writes_delta / host_writes_delta
          flash_writes_delta := flash_writes_delta
          total_flash_writes_tb := total_flash_writes_tb }
      else
        { waf := 1
          flash_writes_delta := flash_writes_delta
          total_flash_writes_tb := total_flash_writes_tb }
  | _, _ =>
      { waf := 1
        flash_writes_delta := host_writes_delta * 1
        total_flash_writes_tb := total_host_writes_tb * 1 }

/-- `EnduranceCalculator._calculate_remaining_lifetime`: returns the pair
(estimated_remaining_days, estimated_remaining_years). -/
def calculate_remaining_lifetime (p : DriveParams)
    (pe_cycles_consumed daily_write_rate_gb waf : ℚ) : LifeVal × LifeVal :=
  let remaining_pe : ℚ := (p.rated_pe_cycles : ℚ) - pe_cycles_consumed
  if 0 < remaining_pe ∧ 0 < daily_write_rate_gb then
    let remaining_bytes : ℚ := remaining_pe * capacity_bytes p
    let daily_flash_bytes : ℚ := daily_write_rate_gb * 1024 ^ 3 * waf
    if 0 < daily_flash_bytes then
      (LifeVal.fin (remaining_bytes / daily_flash_bytes),
       LifeVal.fin (remaining_bytes / daily_flash_bytes / 365.25))
    else
      (LifeVal.inf, LifeVal.inf)
  else
    (LifeVal.fin 0, LifeVal.fin 0)

/-- Body of `EnduranceCalculator.calculate` after the elapsed-time guard:
all metric fields, computed in source order. -/
def calcMetrics (p : DriveParams)
    (snapshot1_data_units_written snapshot2_data_units_written : ℤ)
    (snapshot1_timestamp snapshot2_timestamp : ℚ)
    (snapshot1_nand_writes snapshot2_nand_writes : Option ℤ) :
    EnduranceMetrics :=
  let time_delta_days : ℚ :=
    (snapshot2_timestamp - snapshot1_timestamp) / 86400
  let host_units_delta : ℤ :=
    snapshot2_data_units_written - snapshot1_data_units_written
  let host_writes_delta : ℚ :=
    (host_units_delta : ℚ) * p.host_lba_size_kb * 1024
  let total_host_bytes : ℚ :=
    (snapshot2_data_units_written : ℚ) * p.host_lba_size_kb * 1024
  let total_host_writes_tb : ℚ := total_host_bytes / 1024 ^ 4
  let daily_host_gb : ℚ := host_writes_delta / 1024 ^ 3
  let daily_write_rate_gb : ℚ := daily_host_gb / time_delta_days
  let dwpd : ℚ := daily_write_rate_gb / p.capacity_gb
  let w : WafResult :=
    calculate_waf p host_writes_delta total_host_writes_tb
      snapshot1_nand_writes snapshot2_nand_writes
  let total_flash_bytes : ℚ :=
    (snapshot2_data_units_written : ℚ) * p.host_lba_size_kb * 1024 * w.waf
  let pe_cycles_consumed : ℚ := total_flash_bytes / capacity_bytes p
  let wear_percentage : ℚ :=
    pe_cycles_consumed / (p.rated_pe_cycles : ℚ) * 100
  let rem : LifeVal × LifeVal :=
    calculate_remaining_lifetime p pe_cycles_consumed daily_write_rate_gb
      w.waf
  { time_delta_days := time_delta_days
    host_writes_delta := host_writes_delta
    flash_writes_delta := w.flash_writes_delta
    waf := w.waf
    total_host_writes_tb := total_host_writes_tb
    total_flash_writes_tb := w.total_flash_writes_tb
    dwpd := dwpd
    daily_write_rate_gb := daily_write_rate_gb
    pe_cycles_consumed := pe_cycles_consumed
    estimated_remaining_days := rem.1
    estimated_remaining_years := rem.2
    wear_percentage := wear_percentage }

/-- `EnduranceCalculator.calculate`: raises (`none`) when the derived
elapsed time in days is not positive, otherwise returns the metrics. -/
def calculate (p : DriveParams)
    (snapshot1_data_units_written snapshot2_data_units_written : ℤ)
    (snapshot1_timestamp snapshot2_timestamp : ℚ)
    (snapshot1_nand_writes snapshot2_nand_writes : Option ℤ) :
    Option EnduranceMetrics :=
  if (snapshot2_timestamp - snapshot1_timestamp) / 86400 ≤ 0 then
    none
  else
    some (calcMetrics p snapshot1_data_units_written
      snapshot2_data_units_written snapshot1_timestamp snapshot2_timestamp
      snapshot1_nand_writes snapshot2_nand_writes)

/-! ### Helper lemmas -/

/-- A successful `calculate` returns exactly the metrics of `calcMetrics`. -/
lemma calculate_eq_some {p : DriveParams} {s1 s2 : ℤ} {t1 t2 : ℚ}
    {n1 n2 : Option ℤ} {m : EnduranceMetrics}
    (h : calculate p s1 s2 t1 t2 n1 n2 = some m) :
    m = calcMetrics p s1 s2 t1 t2 n1 n2 := by
  unfold calculate at h
  split_ifs at h
  exact (Option.some.inj h).symm

/-- With positive elapsed time, `calculate` returns the `calcMetrics`
record. -/
lemma calculate_pos_eq (p : DriveParams) (s1 s2 : ℤ) (t1 t2 : ℚ)
    (n1 n2 : Option ℤ) (h : 0 < (t2 - t1) / 86400) :
    calculate p s1 s2 t1 t2 n1 n2 =
      some (calcMetrics p s1 s2 t1 t2 n1 n2) := by
  unfold calculate
  rw [if_neg (not_le.mpr h)]

/-- The `waf` field of the metrics is the `waf` field computed by
`_calculate_waf` from the previously computed deltas. -/
lemma calcMetrics_waf_eq (p : DriveParams) (s1 s2 : ℤ) (t1 t2 : ℚ)
    (n1 n2 : Option ℤ) :
    (calcMetrics p s1 s2 t1 t2 n1 n2).waf =
      (calculate_waf p (calcMetrics p s1 s2 t1 t2 n1 n2).host_writes_delta
        (calcMetrics p s1 s2 t1 t2 n1 n2).total_host_writes_tb n1 n2).waf :=
  rfl

/-- The `flash_writes_delta` field of the metrics comes from
`_calculate_waf`. -/
lemma calcMetrics_flash_eq (p : DriveParams) (s1 s2 : ℤ) (t1 t2 : ℚ)
    (n1 n2 : Option ℤ) :
    (calcMetrics p s1 s2 t1 t2 n1 n2).flash_writes_delta =
      (calculate_waf p (calcMetrics p s1 s2 t1 t2 n1 n2).host_writes_delta
        (calcMetrics p s1 s2 t1 t2 n1 n2).total_host_writes_tb n1
        n2).flash_writes_delta :=
  rfl

/-- The `total_flash_writes_tb` field of the metrics comes from
`_calculate_waf`. -/
lemma calcMetrics_total_flash_eq (p : DriveParams) (s1 s2 : ℤ) (t1 t2 : ℚ)
    (n1 n2 : Option ℤ) :
    (calcMetrics p s1 s2 t1 t2 n1 n2).total_flash_writes_tb =
      (calculate_waf p (calcMetrics p s1 s2 t1 t2 n1 n2).host_writes_delta
        (calcMetrics p s1 s2 t1 t2 n1 n2).total_host_writes_tb n1
        n2).total_flash_writes_tb :=
  rfl

/-- The remaining-lifetime fields of the metrics are the pair computed by
`_calculate_remaining_lifetime` from the previously computed fields. -/
lemma calcMetrics_remaining_eq (p : DriveParams) (s1 s2 : ℤ) (t1 t2 : ℚ)
    (n1 n2 : Option ℤ) :
    ((calcMetrics p s1 s2 t1 t2 n1 n2).estimated_remaining_days,
     (calcMetrics p s1 s2 t1 t2 n1 n2).estimated_remaining_years) =
      calculate_remaining_lifetime p
        (calcMetrics p s1 s2 t1 t2 n1 n2).pe_cycles_consumed
        (calcMetrics p s1 s2 t1 t2 n1 n2).daily_write_rate_gb
        (calcMetrics p s1 s2 t1 t2 n1 n2).waf :=
  rfl

/-- Case analysis of `_calculate_remaining_lifetime`, following the source
branches. -/
lemma remaining_lifetime_cases (p : DriveParams) (pe d w : ℚ) :
    (((p.rated_pe_cycles : ℚ) - pe ≤ 0 ∨ d ≤ 0) →
       calculate_remaining_lifetime p pe d w =
         (LifeVal.fin 0, LifeVal.fin 0)) ∧
    (0 < (p.rated_pe_cycles : ℚ) - pe → 0 < d → 0 < d * w →
       calculate_remaining_lifetime p pe d w =
         (LifeVal.fin (((p.rated_pe_cycles : ℚ) - pe) * capacity_bytes p /
            (d * 1024 ^ 3 * w)),
          LifeVal.fin (((p.rated_pe_cycles : ℚ) - pe) * capacity_bytes p /
            (d * 1024 ^ 3 * w) / 365.25))) ∧
    (0 < (p.rated_pe_cycles : ℚ) - pe → 0 < d → ¬ 0 < d * w →
       calculate_remaining_lifetime p pe d w = (LifeVal.inf, LifeVal.inf)) := by
  unfold calculate_remaining_lifetime
  refine ⟨?_, ?_, ?_⟩
  · intro h
    rw [if_neg]
    rintro ⟨h1, h2⟩
    rcases h with h | h
    · exact absurd h1 (not_lt.mpr h)
    · exact absurd h2 (not_lt.mpr h)
  · intro h1 h2 h3
    have e : d * 1024 ^ 3 * w = d * w * 1073741824 := by ring
    have hdf : 0 < d * 1024 ^ 3 * w := by
      rw [e]; exact mul_pos h3 (by norm_num)
    rw [if_pos ⟨h1, h2⟩, if_pos hdf]
  · intro h1 h2 h3
    have e : d * 1024 ^ 3 * w = d * w * 1073741824 := by ring
    have hdf : ¬ 0 < d * 1024 ^ 3 * w := by
      rw [e]
      intro hcon
      apply h3
      nlinarith [not_lt.mp h3]
    rw [if_pos ⟨h1, h2⟩, if_neg hdf]

/-! ### Claim C1 -/

/-- Claim C1: for every snapshot pair (write counters present) and every
`DriveParams` with all four values strictly positive, `calculate` fails
exactly when the derived elapsed time in days is not positive, and this is
its only failure mode: every input with positive elapsed time yields an
`EnduranceMetrics` value. -/
theorem C1_failure_iff_nonpositive_elapsed (p : DriveParams) (s1 s2 : ℤ)
    (t1 t2 : ℚ) (n1 n2 : Option ℤ)
    (hh : 0 < p.host_lba_size_kb) (hf : 0 < p.flash_lba_size_kb)
    (hr : 0 < p.rated_pe_cycles) (hc : 0 < p.capacity_gb) :
    (calculate p s1 s2 t1 t2 n1 n2 = none ↔ (t2 - t1) / 86400 ≤ 0) ∧
    (0 < (t2 - t1) / 86400 →
      ∃ m : EnduranceMetrics, calculate p s1 s2 t1 t2 n1 n2 = some m) := by
  constructor
  · unfold calculate
    split_ifs with h <;> simp [h]
  · intro hpos
    unfold calculate
    rw [if_neg (not_le.mpr hpos)]
    exact ⟨_, rfl⟩

/-- Witness for C1 at a concrete positive-parameter input. -/
theorem C1_witness :
    (calculate ⟨1, 1, 3000, 500⟩ 0 0 0 86400 none none = none ↔
      ((86400 : ℚ) - 0) / 86400 ≤ 0) ∧
    (0 < ((86400 : ℚ) - 0) / 86400 →
      ∃ m : EnduranceMetrics,
        calculate ⟨1, 1, 3000, 500⟩ 0 0 0 86400 none none = some m) :=
  C1_failure_iff_nonpositive_elapsed ⟨1, 1, 3000, 500⟩ 0 0 0 86400 none none
    (by norm_num) (by norm_num) (by norm_num) (by norm_num)

/-! ### Claim C2 -/

/-- Claim C2: for every successful computation the remaining-life outputs
follow the source case analysis exactly: if the rated cycles minus the
consumed cycles are nonpositive or the daily write rate is nonpositive,
both remaining-life fields are 0; otherwise, if the daily write rate times
the WAF is positive, remaining days equal remaining cycles times capacity
bytes divided by the daily flash bytes and remaining years are that value
divided by 365.25; otherwise both fields are positive infinity. -/
theorem C2_remaining_life_cases (p : DriveParams) (s1 s2 : ℤ) (t1 t2 : ℚ)
    (n1 n2 : Option ℤ) (m : EnduranceMetrics)
    (h : calculate p s1 s2 t1 t2 n1 n2 = some m) :
    (((p.rated_pe_cycles : ℚ) - m.pe_cycles_consumed ≤ 0 ∨
        m.daily_write_rate_gb ≤ 0) →
      m.estimated_remaining_days = LifeVal.fin 0 ∧
      m.estimated_remaining_years = LifeVal.fin 0) ∧
    (0 < (p.rated_pe_cycles : ℚ) - m.pe_cycles_consumed →
      0 < m.daily_write_rate_gb →
      0 < m.daily_write_rate_gb * m.waf →
      m.estimated_remaining_days =
        LifeVal.fin (((p.rated_pe_cycles : ℚ) - m.pe_cycles_consumed) *
          capacity_bytes p /
          (m.daily_write_rate_gb * 1024 ^ 3 * m.waf)) ∧
      m.estimated_remaining_years =
        LifeVal.fin (((p.rated_pe_cycles : ℚ) - m.pe_cycles_consumed) *
          capacity_bytes p /
          (m.daily_write_rate_gb * 1024 ^ 3 * m.waf) / 365.25)) ∧
    (0 < (p.rated_pe_cycles : ℚ) - m.pe_cycles_consumed →
      0 < m.daily_write_rate_gb →
      ¬ 0 < m.daily_write_rate_gb * m.waf →
      m.estimated_remaining_days = LifeVal.inf ∧
      m.estimated_remaining_years = LifeVal.inf) := by
  have hm := calculate_eq_some h
  subst hm
  obtain ⟨c1, c2, c3⟩ := remaining_lifetime_cases p
    (calcMetrics p s1 s2 t1 t2 n1 n2).pe_cycles_consumed
    (calcMetrics p s1 s2 t1 t2 n1 n2).daily_write_rate_gb
    (calcMetrics p s1 s2 t1 t2 n1 n2).waf
  have hre := calcMetrics_remaining_eq p s1 s2 t1 t2 n1 n2
  refine ⟨?_, ?_, ?_⟩
  · intro hcase
    have hp := hre.trans (c1 hcase)
    exact ⟨congrArg Prod.fst hp, congrArg Prod.snd hp⟩
  · intro h1 h2 h3
    have hp := hre.trans (c2 h1 h2 h3)
    exact ⟨congrArg Prod.fst hp, congrArg Prod.snd hp⟩
  · intro h1 h2 h3
    have hp := hre.trans (c3 h1 h2 h3)
    exact ⟨congrArg Prod.fst hp, congrArg Prod.snd hp⟩

/-- Witness for C2 at a concrete input falling in the zero branch (no
write activity between the snapshots). -/
theorem C2_witness :
    (calcMetrics ⟨1, 1, 3000, 500⟩ 0 0 0 86400 none
        none).estimated_remaining_days = LifeVal.fin 0 ∧
    (calcMetrics ⟨1, 1, 3000, 500⟩ 0 0 0 86400 none
        none).estimated_remaining_years = LifeVal.fin 0 :=
  (C2_remaining_life_cases ⟨1, 1, 3000, 500⟩ 0 0 0 86400 none none
      (calcMetrics ⟨1, 1, 3000, 500⟩ 0 0 0 86400 none none)
      (calculate_pos_eq ⟨1, 1, 3000, 500⟩ 0 0 0 86400 none none
        (by norm_num))).1
    (Or.inr (by norm_num [calcMetrics]))

/-! ### Claim C3 -/

/-- Claim C3: for every successful computation with flash-side write
counters supplied on both snapshots and a zero host bytes delta, the write
amplification factor is exactly 1.0 regardless of the flash-side delta. -/
theorem C3_waf_zero_host_delta (p : DriveParams) (s1 s2 : ℤ) (t1 t2 : ℚ)
    (n1 n2 : ℤ) (m : EnduranceMetrics)
    (h : calculate p s1 s2 t1 t2 (some n1) (some n2) = some m)
    (hz : m.host_writes_delta = 0) :
    m.waf = 1 := by
  have hm := calculate_eq_some h
  subst hm
  rw [calcMetrics_waf_eq, hz]
  simp [calculate_waf]

/-- Witness for C3: equal host counters, strictly increasing flash
counters. -/
theorem C3_witness :
    (calcMetrics ⟨1, 1, 3000, 500⟩ 5 5 0 86400 (some 100) (some 300)).waf =
      1 :=
  C3_waf_zero_host_delta ⟨1, 1, 3000, 500⟩ 5 5 0 86400 100 300
    (calcMetrics ⟨1, 1, 3000, 500⟩ 5 5 0 86400 (some 100) (some 300))
    (calculate_pos_eq ⟨1, 1, 3000, 500⟩ 5 5 0 86400 (some 100) (some 300)
      (by norm_num))
    (by norm_num [calcMetrics])

/-! ### Claim C4 -/

/-- Default branch of `_calculate_waf`: when at least one NAND counter is
absent, the WAF is assumed to be 1.0 and the flash-side quantities are
derived from the host-side ones. -/
lemma calculate_waf_default (p : DriveParams) (hwd thtb : ℚ)
    (n1 n2 : Option ℤ) (hn : n1 = none ∨ n2 = none) :
    calculate_waf p hwd thtb n1 n2 =
      { waf := 1
        flash_writes_delta := hwd * 1
        total_flash_writes_tb := thtb * 1 } := by
  rcases hn with rfl | rfl
  · cases n2 <;> rfl
  · cases n1 <;> rfl

/-- Counterexample for claim C4: the claim asserts that a result computed
without flash-side counters carries a provenance flag distinguishing the
assumed WAF from a measured one.  No such flag exists: a computation with
no flash counters and a computation with measured flash counters (here a
genuinely measured WAF of 1.0) return field-for-field identical
`EnduranceMetrics` values, so no caller can distinguish them. -/
theorem C4_counterexample :
    calculate ⟨1, 1, 3000, 500⟩ 0 1000 0 86400 none none =
      calculate ⟨1, 1, 3000, 500⟩ 0 1000 0 86400 (some 0) (some 1000) := by
  rw [calculate_pos_eq _ _ _ _ _ _ _ (by norm_num),
      calculate_pos_eq _ _ _ _ _ _ _ (by norm_num)]
  norm_num [calcMetrics, calculate_waf, calculate_remaining_lifetime,
    capacity_bytes, EnduranceMetrics.mk.injEq]

/-- Claim C4 (amended): for every successful computation in which the
flash-side write counters are not both supplied, the write amplification
factor is exactly 1.0 and the flash bytes delta equals the host bytes
delta (and the cumulative flash TB equals the cumulative host TB); the
result carries no provenance flag — an assumed WAF is indistinguishable
from a measured one in the returned metrics. -/
theorem C4_assumed_waf (p : DriveParams) (s1 s2 : ℤ) (t1 t2 : ℚ)
    (n1 n2 : Option ℤ) (m : EnduranceMetrics)
    (hn : n1 = none ∨ n2 = none)
    (h : calculate p s1 s2 t1 t2 n1 n2 = some m) :
    m.waf = 1 ∧ m.flash_writes_delta = m.host_writes_delta ∧
    m.total_flash_writes_tb = m.total_host_writes_tb := by
  have hm := calculate_eq_some h
  subst hm
  have hd := calculate_waf_default p
    (calcMetrics p s1 s2 t1 t2 n1 n2).host_writes_delta
    (calcMetrics p s1 s2 t1 t2 n1 n2).total_host_writes_tb n1 n2 hn
  refine ⟨?_, ?_, ?_⟩
  · rw [calcMetrics_waf_eq, hd]
  · rw [calcMetrics_flash_eq, hd]
    exact mul_one _
  · rw [calcMetrics_total_flash_eq, hd]
    exact mul_one _

/-- Witness for the amended C4 at a concrete input without flash
counters. -/
theorem C4_witness :
    (calcMetrics ⟨1, 1, 3000, 500⟩ 0 1000 0 86400 none none).waf = 1 ∧
    (calcMetrics ⟨1, 1, 3000, 500⟩ 0 1000 0 86400 none
        none).flash_writes_delta =
      (calcMetrics ⟨1, 1, 3000, 500⟩ 0 1000 0 86400 none
        none).host_writes_delta ∧
    (calcMetrics ⟨1, 1, 3000, 500⟩ 0 1000 0 86400 none
        none).total_flash_writes_tb =
      (calcMetrics ⟨1, 1, 3000, 500⟩ 0 1000 0 86400 none
        none).total_host_writes_tb :=
  C4_assumed_waf ⟨1, 1, 3000, 500⟩ 0 1000 0 86400 none none
    (calcMetrics ⟨1, 1, 3000, 500⟩ 0 1000 0 86400 none none)
    (Or.inl rfl)
    (calculate_pos_eq ⟨1, 1, 3000, 500⟩ 0 1000 0 86400 none none
      (by norm_num))

/-! ### Claim C5 -/

/-- Counterexample for claim C5: the claim reads "both serials present
implies they are equal" with presence meaning the optional field is set.
The source guards the identity check with Python truthiness, and an empty
serial string (reachable from the extractor when the captured text is all
whitespace) is falsy, so a pair whose serials are both present but unequal
(one of them empty) passes validation — the claimed equivalence fails at
this input. -/
theorem C5_counterexample :
    validate_snapshots
        { serial := some [], data_units_written := some 0 }
        { serial := some ['B'], data_units_written := some 0 } =
      VOutcome.ok ∧
    (some ([] : List Char)).isSome = true ∧
    (some ['B']).isSome = true ∧
    some ([] : List Char) ≠ some ['B'] := by
  refine ⟨by decide, rfl, rfl, by decide⟩

/-- Claim C5 (amended): for every pair of snapshots whose mandatory write
counters are present, validation succeeds if and only if all three rules
hold, where serial presence is taken in the Python-truthiness sense of the
source (present and non-empty): (both serials present and non-empty
implies they are equal), (both timestamps present implies strict order),
and counter monotonicity; absence (or emptiness) of a serial, or absence
of a timestamp, on either side skips the corresponding check, and any
violated rule aborts with an error. -/
theorem C5_validate_iff (s1 s2 : SmartData) (a b : ℕ)
    (h1 : s1.data_units_written = some a)
    (h2 : s2.data_units_written = some b) :
    validate_snapshots s1 s2 = VOutcome.ok ↔
      ((pyTruthy s1.serial = true → pyTruthy s2.serial = true →
          s1.serial = s2.serial) ∧
       (∀ u v : ℚ, s1.timestamp = some u → s2.timestamp = some v →
          u < v) ∧
       a ≤ b) := by
  unfold validate_snapshots
  rw [h1, h2]
  split_ifs with hser hts
  · simp only [decide_eq_true_eq, Bool.and_eq_true] at hser
    constructor
    · intro hok
      exact absurd hok (by decide)
    · rintro ⟨hr, -, -⟩
      exact absurd (hr hser.1.1 hser.1.2) hser.2
  · unfold tsOutOfOrder at hts
    constructor
    · intro hok
      exact absurd hok (by decide)
    · rintro ⟨-, hr, -⟩
      revert hts
      cases hu : s1.timestamp with
      | none => simp
      | some u =>
        cases hv : s2.timestamp with
        | none => simp
        | some v =>
          intro hts
          exact absurd (hr u v hu hv) (not_lt.mpr (by simpa using hts))
  · simp only [decide_eq_true_eq, Bool.and_eq_true, not_and_or] at hser
    unfold tsOutOfOrder at hts
    change (if b < a then VOutcome.counterRegression else VOutcome.ok) =
      VOutcome.ok ↔ _
    constructor
    · intro hok
      refine ⟨?_, ?_, ?_⟩
      · intro hp1 hp2
        rcases hser with h | h
        · rcases h with h | h
          · exact absurd hp1 (by simpa using h)
          · exact absurd hp2 (by simpa using h)
        · exact not_not.mp (by simpa using h)
      · intro u v hu hv
        rw [hu, hv] at hts
        simpa using lt_of_not_le (by simpa using hts)
      · by_contra hab
        have : b < a := lt_of_not_le hab
        simp only [if_pos this] at hok
        exact absurd hok (by decide)
    · rintro ⟨-, -, hab⟩
      rw [if_neg (not_lt.mpr hab)]

/-- Witness for the amended C5: a fully populated valid pair. -/
theorem C5_witness :
    validate_snapshots
        { timestamp := some 0, serial := some ['A'],
          data_units_written := some 3 }
        { timestamp := some 1, serial := some ['A'],
          data_units_written := some 5 } = VOutcome.ok :=
  (C5_validate_iff
      { timestamp := some 0, serial := some ['A'],
        data_units_written := some 3 }
      { timestamp := some 1, serial := some ['A'],
        data_units_written := some 5 } 3 5 rfl rfl).mpr
    ⟨fun _ _ => rfl,
     fun u v hu hv => by
       have hu2 : (0 : ℚ) = u := by simpa using hu
       have hv2 : (1 : ℚ) = v := by simpa using hv
       rw [← hu2, ← hv2]
       norm_num,
     by norm_num⟩

/-! ### Claim C6 -/

/-- A parseable optional capture unfolds to a successful `int`
conversion. -/
lemma parseCapture_ok (c : Option (List Char)) (h : capOk c = true) :
    parseCapture c = Except.ok (c.bind nvmeParseValue) := by
  cases c with
  | none => rfl
  | some cap =>
    have h2 : (nvmeParseValue cap).isSome = true := by
      simpa [capOk] using h
    cases hv : nvmeParseValue cap with
    | none =>
      rw [hv] at h2
      simp at h2
    | some v => simp [parseCapture, hv]

/-- Counterexample for claim C6: the claim asserts that extraction avoids
the missing-field error whenever at least one of the two dialect rules can
locate the write counter.  The source applies only the rule of the
detected dialect: a text containing the NVMe marker but no NVMe write
label fails with the missing-field error even though a legacy attribute
row for the write counter is present (and would yield the value 100). -/
theorem C6_counterexample :
    parse_file
        { hasNVMeMarker := true, sataWrittenCols := [['1', '0', '0']] } =
      Except.error ParseErr.missingField ∧
    sataFindValue [['1', '0', '0']] = some 100 :=
  ⟨rfl, by decide⟩

/-- Claim C6 (amended): provided no labelled capture preceding the
mandatory-field check makes `int` raise (the invalid-literal failure,
which aborts extraction with a distinct error before that check),
extraction fails with the missing-field error if and only if the write
counter cannot be located under the rule of the dialect detected from the
text: the flash-dialect label rule when the NVMe marker is present, and
the legacy attribute-row rule otherwise.  The rule of the other dialect
is never consulted. -/
theorem C6_missing_field_iff (t : SmartText)
    (hcap : capOk t.capacityCap = true)
    (hread : capOk t.nvmeReadCap = true)
    (hpoh : capOk t.nvmePowerOnCap = true) :
    parse_file t = Except.error ParseErr.missingField ↔
      (if t.hasNVMeMarker then t.nvmeWrittenCap = none
       else sataFindValue t.sataWrittenCols = none) := by
  unfold parse_file
  rw [parseCapture_ok t.capacityCap hcap]
  cases ht : t.hasNVMeMarker
  · simp only [ht, Bool.false_eq_true, if_false]
    cases hv : sataFindValue t.sataWrittenCols <;> simp
  · simp only [ht, if_true]
    rw [parseCapture_ok t.nvmeReadCap hread,
        parseCapture_ok t.nvmePowerOnCap hpoh]
    cases hw : t.nvmeWrittenCap with
    | none => simp [parseCapture]
    | some cap =>
      cases hv : nvmeParseValue cap with
      | none => simp [parseCapture, hv]
      | some v => simp [parseCapture, hv]

/-- Witness for the amended C6: an NVMe-marked text with no captures at
all fails with the missing-field error. -/
theorem C6_witness :
    parse_file ({ hasNVMeMarker := true } : SmartText) =
      Except.error ParseErr.missingField :=
  (C6_missing_field_iff { hasNVMeMarker := true } rfl rfl rfl).mpr rfl

/-! ### Claim C9 -/

/-- On a capture over digits and commas (the content the `[0-9,]+` class
admits) that contains at least one digit, `int` accepts the comma-free
residue and returns its value. -/
lemma nvmeParseValue_eq (cap : List Char)
    (hvalid : ∀ c ∈ cap, isDigitChar c = true ∨ c = ',')
    (hdigit : ∃ c ∈ cap, isDigitChar c = true) :
    nvmeParseValue cap = some (parseDigits (stripCommas cap)) := by
  have hcond : stripCommas cap ≠ [] ∧
      (stripCommas cap).all isDigitChar = true := by
    constructor
    · obtain ⟨c, hcmem, hcd⟩ := hdigit
      have hne : c ≠ ',' := by
        intro e
        rw [e] at hcd
        exact absurd hcd (by decide)
      have hmem : c ∈ stripCommas cap := by
        unfold stripCommas
        rw [List.mem_filter]
        exact ⟨hcmem, by simpa using hne⟩
      intro hemp
      rw [hemp] at hmem
      exact absurd hmem (List.not_mem_nil c)
    · rw [List.all_eq_true]
      intro c hcmem
      unfold stripCommas at hcmem
      have h2 := List.mem_filter.mp hcmem
      rcases hvalid c h2.1 with h | h
      · exact h
      · exact absurd h (by simpa using h2.2)
  unfold nvmeParseValue pyInt
  rw [if_pos hcond]

/-- Counterexample for claim C9: the claim asserts that thousands
separators are stripped in both dialects.  In the legacy attribute-table
dialect the raw-value capture is a bare digit run, so the counter written
as 1,234,567 is extracted as 1 — the capture stops at the first comma —
while the very same digits-and-commas text under the flash-dialect label
rule would parse to the full 1234567. -/
theorem C9_counterexample :
    parse_file
        { sataWrittenCols :=
            [['1', ',', '2', '3', '4', ',', '5', '6', '7']] } =
      Except.ok { data_units_written := some 1 } ∧
    (1 : ℕ) ≠ 1234567 ∧
    nvmeParseValue ['1', ',', '2', '3', '4', ',', '5', '6', '7'] =
      some 1234567 :=
  ⟨rfl, by decide, by decide⟩

/-- Claim C9 (amended): in the flash dialect every extracted integer has
its thousands separators stripped before parsing — whenever the capture
(a string over digits and commas) contains a digit and the other labelled
captures are parseable, extraction succeeds and the value is the integer
of the capture with commas removed — while in the legacy attribute-table
dialect no separator handling exists: the extracted value is the integer
of the leading digit run of the raw column, so separators truncate the
value. -/
theorem C9_sep_stripping :
    (∀ (t : SmartText) (cap : List Char), t.hasNVMeMarker = true →
        t.nvmeWrittenCap = some cap →
        (∀ c ∈ cap, isDigitChar c = true ∨ c = ',') →
        (∃ c ∈ cap, isDigitChar c = true) →
        capOk t.capacityCap = true → capOk t.nvmeReadCap = true →
        capOk t.nvmePowerOnCap = true →
        ∃ d, parse_file t = Except.ok d ∧
          d.data_units_written = some (parseDigits (stripCommas cap))) ∧
    (∀ (t : SmartText) (col : List Char) (rest : List (List Char)),
        t.hasNVMeMarker = false → t.sataWrittenCols = col :: rest →
        headIsDigit col = true → capOk t.capacityCap = true →
        ∃ d, parse_file t = Except.ok d ∧
          d.data_units_written = some (parseDigits (leadingDigits col))) := by
  constructor
  · intro t cap ht hc hvalid hdigit hcap hread hpoh
    have hv := nvmeParseValue_eq cap hvalid hdigit
    unfold parse_file
    rw [parseCapture_ok t.capacityCap hcap]
    simp only [ht, if_true]
    rw [parseCapture_ok t.nvmeReadCap hread,
        parseCapture_ok t.nvmePowerOnCap hpoh]
    simp only [hc, parseCapture, hv]
    exact ⟨_, rfl, rfl⟩
  · intro t col rest ht hcols hd hcap
    unfold parse_file
    rw [parseCapture_ok t.capacityCap hcap]
    simp only [ht, hcols, Bool.false_eq_true, if_false]
    unfold sataFindValue
    simp only [List.find?, hd, Option.map_some']
    exact ⟨_, rfl, rfl⟩

/-- Witness for the amended C9 at concrete captures. -/
theorem C9_witness :
    (∃ d,
      parse_file
          { hasNVMeMarker := true,
            nvmeWrittenCap :=
              some ['1', ',', '2', '3', '4', ',', '5', '6', '7'] } =
        Except.ok d ∧
      d.data_units_written =
        some (parseDigits
          (stripCommas ['1', ',', '2', '3', '4', ',', '5', '6', '7']))) ∧
    (∃ d,
      parse_file { sataWrittenCols := [['1', ',', '2']] } =
        Except.ok d ∧
      d.data_units_written =
        some (parseDigits (leadingDigits ['1', ',', '2']))) :=
  ⟨C9_sep_stripping.1 _ _ rfl rfl (by decide) (by decide) rfl rfl rfl,
   C9_sep_stripping.2 _ ['1', ',', '2'] [] rfl rfl rfl rfl⟩

/-! ### Claim C10 -/

/-- Counterexample for claim C10: the claim asserts that for every pair
with an absent write counter, validation neither succeeds nor raises one
of the documented validation errors.  The counter comparison is reached
only after the serial and timestamp checks: a pair with mismatching
serials and absent counters aborts with the documented identity-mismatch
error before the comparison is reached. -/
theorem C10_counterexample :
    ({ serial := some ['A'] } : SmartData).data_units_written = none ∧
    validate_snapshots { serial := some ['A'] } { serial := some ['B'] } =
      VOutcome.identityMismatch := by
  decide

/-- Claim C10 (amended): for every pair of snapshots with the write
counter absent on either side, if the serial and timestamp checks do not
themselves abort, validation reaches the unconditional counter comparison
and fails with the untyped comparison error — neither success nor one of
the documented validation errors.  The comparison is safe only under the
precondition that both snapshots came from a successful extraction. -/
theorem C10_absent_counter (s1 s2 : SmartData)
    (habs : s1.data_units_written = none ∨ s2.data_units_written = none)
    (hser : ¬(pyTruthy s1.serial = true ∧ pyTruthy s2.serial = true ∧
      s1.serial ≠ s2.serial))
    (hts : tsOutOfOrder s1 s2 = false) :
    validate_snapshots s1 s2 = VOutcome.typeError := by
  unfold validate_snapshots
  split_ifs with hc1 hc2
  · exfalso
    apply hser
    have := hc1
    simp only [Bool.and_eq_true, decide_eq_true_eq] at this
    exact ⟨this.1.1, this.1.2, this.2⟩
  · rw [hts] at hc2
    exact absurd hc2 (by decide)
  · cases hA : s1.data_units_written <;> cases hB : s2.data_units_written
    · rfl
    · rfl
    · rfl
    · exfalso
      rcases habs with h | h
      · rw [hA] at h
        exact Option.noConfusion h
      · rw [hB] at h
        exact Option.noConfusion h

/-- Witness for the amended C10: two default snapshots (no serials, no
timestamps, no counters). -/
theorem C10_witness :
    validate_snapshots ({} : SmartData) ({} : SmartData) =
      VOutcome.typeError :=
  C10_absent_counter {} {} (Or.inl rfl) (by decide) rfl

/-! ### Claim C7 -/

/-- Non-negativity of every metrics field, with positive infinity allowed
only in the two remaining-life fields (the only fields of type
`LifeVal`). -/
def MetricsNonneg (m : EnduranceMetrics) : Prop :=
  0 ≤ m.time_delta_days ∧ 0 ≤ m.host_writes_delta ∧
  0 ≤ m.flash_writes_delta ∧ 0 ≤ m.waf ∧
  0 ≤ m.total_host_writes_tb ∧ 0 ≤ m.total_flash_writes_tb ∧
  0 ≤ m.dwpd ∧ 0 ≤ m.daily_write_rate_gb ∧ 0 ≤ m.pe_cycles_consumed ∧
  0 ≤ m.wear_percentage ∧
  (∀ q, m.estimated_remaining_days = LifeVal.fin q → 0 ≤ q) ∧
  (∀ q, m.estimated_remaining_years = LifeVal.fin q → 0 ≤ q)

/-- All three outputs of `_calculate_waf` are non-negative when the host
quantities are non-negative and any supplied NAND counters are
non-negative and non-decreasing. -/
lemma calculate_waf_nonneg (p : DriveParams) (hwd thtb : ℚ)
    (n1 n2 : Option ℤ) (hhwd : 0 ≤ hwd) (hthtb : 0 ≤ thtb)
    (hf : 0 < p.flash_lba_size_kb)
    (hn : ∀ a b : ℤ, n1 = some a → n2 = some b → 0 ≤ a ∧ a ≤ b) :
    0 ≤ (calculate_waf p hwd thtb n1 n2).waf ∧
    0 ≤ (calculate_waf p hwd thtb n1 n2).flash_writes_delta ∧
    0 ≤ (calculate_waf p hwd thtb n1 n2).total_flash_writes_tb := by
  cases n1 with
  | none =>
    cases n2 <;>
      simpa [calculate_waf] using ⟨hhwd, hthtb⟩
  | some a =>
    cases n2 with
    | none =>
      simpa [calculate_waf] using ⟨hhwd, hthtb⟩
    | some b =>
      obtain ⟨ha, hab⟩ := hn a b rfl rfl
      have hfd : (0 : ℚ) ≤ ((b - a : ℤ) : ℚ) * p.flash_lba_size_kb * 1024 :=
        mul_nonneg
          (mul_nonneg (by exact_mod_cast sub_nonneg.mpr hab) hf.le)
          (by norm_num)
      have htf : (0 : ℚ) ≤ (b : ℚ) * p.flash_lba_size_kb * 1024 / 1024 ^ 4 :=
        div_nonneg
          (mul_nonneg
            (mul_nonneg (by exact_mod_cast ha.trans hab) hf.le)
            (by norm_num))
          (by norm_num)
      simp only [calculate_waf]
      split_ifs with hpos
      · exact ⟨div_nonneg hfd hpos.le, hfd, htf⟩
      · exact ⟨by norm_num, hfd, htf⟩

/-- Any finite value produced by `_calculate_remaining_lifetime` is
non-negative when the capacity is non-negative. -/
lemma remaining_lifetime_nonneg (p : DriveParams) (pe d w : ℚ)
    (hcap : 0 ≤ p.capacity_gb) :
    (∀ q, (calculate_remaining_lifetime p pe d w).1 = LifeVal.fin q →
      0 ≤ q) ∧
    (∀ q, (calculate_remaining_lifetime p pe d w).2 = LifeVal.fin q →
      0 ≤ q) := by
  obtain ⟨c1, c2, c3⟩ := remaining_lifetime_cases p pe d w
  have hcb : (0 : ℚ) ≤ capacity_bytes p := mul_nonneg hcap (by norm_num)
  by_cases h1 : 0 < (p.rated_pe_cycles : ℚ) - pe
  · by_cases h2 : 0 < d
    · by_cases h3 : 0 < d * w
      · have he := c2 h1 h2 h3
        rw [Prod.ext_iff] at he
        have hdf : 0 < d * 1024 ^ 3 * w := by
          have e : d * 1024 ^ 3 * w = d * w * 1073741824 := by ring
          rw [e]
          exact mul_pos h3 (by norm_num)
        have hq : (0 : ℚ) ≤
            ((p.rated_pe_cycles : ℚ) - pe) * capacity_bytes p /
              (d * 1024 ^ 3 * w) :=
          div_nonneg (mul_nonneg h1.le hcb) hdf.le
        constructor <;> intro q hqe
        · rw [he.1] at hqe
          injection hqe with e
          rw [← e]
          exact hq
        · rw [he.2] at hqe
          injection hqe with e
          rw [← e]
          exact div_nonneg hq (by norm_num)
      · have he := c3 h1 h2 h3
        rw [Prod.ext_iff] at he
        constructor <;> intro q hqe
        · rw [he.1] at hqe
          exact LifeVal.noConfusion hqe
        · rw [he.2] at hqe
          exact LifeVal.noConfusion hqe
    · have he := c1 (Or.inr (not_lt.mp h2))
      rw [Prod.ext_iff] at he
      constructor <;> intro q hqe
      · rw [he.1] at hqe
        injection hqe with e
        rw [← e]
      · rw [he.2] at hqe
        injection hqe with e
        rw [← e]
  · have he := c1 (Or.inl (not_lt.mp h1))
    rw [Prod.ext_iff] at he
    constructor <;> intro q hqe
    · rw [he.1] at hqe
      injection hqe with e
      rw [← e]
    · rw [he.2] at hqe
      injection hqe with e
      rw [← e]

/-- Claim C7: for every snapshot pair with non-negative write counters
satisfying the validated-pair preconditions (counter monotone, timestamps
strictly ordered, supplied flash counters non-negative and non-decreasing)
and strictly positive device parameters, every field of the resulting
metrics is non-negative, with positive infinity possible only in the two
remaining-life fields. -/
theorem C7_nonneg (p : DriveParams) (s1 s2 : ℤ) (t1 t2 : ℚ)
    (n1 n2 : Option ℤ) (m : EnduranceMetrics)
    (hs1 : 0 ≤ s1) (hs12 : s1 ≤ s2) (ht : t1 < t2)
    (hn : ∀ a b : ℤ, n1 = some a → n2 = some b → 0 ≤ a ∧ a ≤ b)
    (hh : 0 < p.host_lba_size_kb) (hf : 0 < p.flash_lba_size_kb)
    (hr : 0 < p.rated_pe_cycles) (hc : 0 < p.capacity_gb)
    (h : calculate p s1 s2 t1 t2 n1 n2 = some m) :
    MetricsNonneg m := by
  have hm := calculate_eq_some h
  subst hm
  have htd : (0 : ℚ) < (t2 - t1) / 86400 :=
    div_pos (by linarith) (by norm_num)
  have hhwd : (0 : ℚ) ≤ ((s2 - s1 : ℤ) : ℚ) * p.host_lba_size_kb * 1024 :=
    mul_nonneg
      (mul_nonneg (by exact_mod_cast sub_nonneg.mpr hs12) hh.le)
      (by norm_num)
  have hs2 : (0 : ℚ) ≤ (s2 : ℚ) := by exact_mod_cast hs1.trans hs12
  have hthtb : (0 : ℚ) ≤ (s2 : ℚ) * p.host_lba_size_kb * 1024 / 1024 ^ 4 :=
    div_nonneg
      (mul_nonneg (mul_nonneg hs2 hh.le) (by norm_num)) (by norm_num)
  have hdaily : (0 : ℚ) ≤
      ((s2 - s1 : ℤ) : ℚ) * p.host_lba_size_kb * 1024 / 1024 ^ 3 /
        ((t2 - t1) / 86400) :=
    div_nonneg (div_nonneg hhwd (by norm_num)) htd.le
  obtain ⟨hw1, hw2, hw3⟩ := calculate_waf_nonneg p
    (calcMetrics p s1 s2 t1 t2 n1 n2).host_writes_delta
    (calcMetrics p s1 s2 t1 t2 n1 n2).total_host_writes_tb n1 n2
    hhwd hthtb hf hn
  obtain ⟨hr1, hr2⟩ := remaining_lifetime_nonneg p
    (calcMetrics p s1 s2 t1 t2 n1 n2).pe_cycles_consumed
    (calcMetrics p s1 s2 t1 t2 n1 n2).daily_write_rate_gb
    (calcMetrics p s1 s2 t1 t2 n1 n2).waf hc.le
  have hpe : (0 : ℚ) ≤
      (s2 : ℚ) * p.host_lba_size_kb * 1024 *
          (calculate_waf p
            (calcMetrics p s1 s2 t1 t2 n1 n2).host_writes_delta
            (calcMetrics p s1 s2 t1 t2 n1 n2).total_host_writes_tb n1
            n2).waf /
        capacity_bytes p :=
    div_nonneg
      (mul_nonneg (mul_nonneg (mul_nonneg hs2 hh.le) (by norm_num)) hw1)
      (mul_nonneg hc.le (by norm_num))
  refine ⟨htd.le, hhwd, hw2, hw1, hthtb, hw3, ?_, hdaily, hpe, ?_, hr1,
    hr2⟩
  · exact div_nonneg hdaily hc.le
  · exact mul_nonneg
      (div_nonneg hpe (by exact_mod_cast hr.le)) (by norm_num)

/-- Witness for C7 at a concrete validated input with measured flash
counters. -/
theorem C7_witness :
    MetricsNonneg
      (calcMetrics ⟨1, 1, 3000, 500⟩ 0 1000 0 86400 (some 0)
        (some 2000)) :=
  C7_nonneg ⟨1, 1, 3000, 500⟩ 0 1000 0 86400 (some 0) (some 2000)
    (calcMetrics ⟨1, 1, 3000, 500⟩ 0 1000 0 86400 (some 0) (some 2000))
    (by norm_num) (by norm_num) (by norm_num)
    (fun a b ha hb => by
      injection ha with ea
      injection hb with eb
      rw [← ea, ← eb]
      norm_num)
    (by norm_num) (by norm_num) (by norm_num) (by norm_num)
    (calculate_pos_eq ⟨1, 1, 3000, 500⟩ 0 1000 0 86400 (some 0)
      (some 2000) (by norm_num))

/-! ### Claim C8 -/

/-- Measured branch of `_calculate_waf` with a positive host delta. -/
lemma calculate_waf_measured (p : DriveParams) (hwd thtb : ℚ) (a b : ℤ)
    (hpos : 0 < hwd) :
    calculate_waf p hwd thtb (some a) (some b) =
      { waf := ((b - a : ℤ) : ℚ) * p.flash_lba_size_kb * 1024 / hwd
        flash_writes_delta := ((b - a : ℤ) : ℚ) * p.flash_lba_size_kb * 1024
        total_flash_writes_tb :=
          (b : ℚ) * p.flash_lba_size_kb * 1024 / 1024 ^ 4 } := by
  unfold calculate_waf
  simp [hpos]

/-- Claim C8: with host unit size 0.5 KiB, flash unit size 32 KiB,
snapshot-1 host/flash units 1000000/100000 and snapshot-2 host/flash units
2000000/200000 over a positive elapsed time, the computation yields a host
bytes delta of 512000000, a flash bytes delta of 3276800000 and a write
amplification factor of exactly 6.4, for every positive rated cycle count
and capacity. -/
theorem C8_measured_waf (rated : ℤ) (cap : ℚ)
    (hr : 0 < rated) (hc : 0 < cap) :
    ∃ m, calculate ⟨1/2, 32, rated, cap⟩ 1000000 2000000 0 86400
        (some 100000) (some 200000) = some m ∧
      m.host_writes_delta = 512000000 ∧
      m.flash_writes_delta = 3276800000 ∧
      m.waf = 6.4 := by
  have hhwd : (calcMetrics ⟨1/2, 32, rated, cap⟩ 1000000 2000000 0 86400
      (some 100000) (some 200000)).host_writes_delta = 512000000 := by
    show ((2000000 - 1000000 : ℤ) : ℚ) * (1 / 2) * 1024 = 512000000
    norm_num
  have hwafr := calculate_waf_measured ⟨1/2, 32, rated, cap⟩
    (512000000 : ℚ)
    (calcMetrics ⟨1/2, 32, rated, cap⟩ 1000000 2000000 0 86400
      (some 100000) (some 200000)).total_host_writes_tb
    100000 200000 (by norm_num)
  refine ⟨calcMetrics ⟨1/2, 32, rated, cap⟩ 1000000 2000000 0 86400
    (some 100000) (some 200000),
    calculate_pos_eq ⟨1/2, 32, rated, cap⟩ 1000000 2000000 0 86400
      (some 100000) (some 200000) (by norm_num), hhwd, ?_, ?_⟩
  · rw [calcMetrics_flash_eq, hhwd, hwafr]
    norm_num
  · rw [calcMetrics_waf_eq, hhwd, hwafr]
    norm_num

/-- Witness for C8 with a concrete rated cycle count and capacity. -/
theorem C8_witness :
    ∃ m, calculate ⟨1/2, 32, 3000, 500⟩ 1000000 2000000 0 86400
        (some 100000) (some 200000) = some m ∧
      m.host_writes_delta = 512000000 ∧
      m.flash_writes_delta = 3276800000 ∧
      m.waf = 6.4 :=
  C8_measured_waf 3000 500 (by norm_num) (by norm_num)
